import Mathlib

/-!
Shallow embedding of `scripts/get_entity_ids.py` (parlamento-deputados).

The script drives a browser session over the Parliament website, iterating
"legislatures" (partitions), deriving a page count from a results counter,
extracting entity identifiers per page, deduplicating across runs through a
JSON cache, and writing a sorted output file.

Modelling conventions:
  - Python exceptions become an explicit `PyError` value threaded through
    `Except` / result pairs; `except WebDriverException` in the source
    corresponds to catching exactly `PyError.webDriver`.
  - The Selenium driver is an oracle (`Site`): each wait/click either
    succeeds or raises `webDriver` (timeouts and driver errors are both
    `WebDriverException`s), and `find_elements` results are functions of the
    currently selected legislature and page.
  - The filesystem seen by the cache code is an explicit `FS` value.
  - `dict`/`set` state mutated in place by the Python class becomes the
    explicit `ScrState` record passed through the crawl functions.
-/

/-- Python exception classes that the script can raise or catch. -/
inductive PyError where
  /-- `selenium.common.exceptions.WebDriverException` (includes timeouts). -/
  | webDriver
  /-- `AttributeError`, e.g. `None.group()` when `re.search` finds nothing. -/
  | attributeError
  /-- `ValueError`, e.g. `json.load` on a corrupt file. -/
  | valueError
  /-- `IndexError`, e.g. `rsplit('=')[1]` when the link has no `=`. -/
  | indexError
  /-- `OSError`/`IOError`, e.g. `open` on a path in a missing directory. -/
  | oserror
  /-- `TypeError`, e.g. `set()` of unhashable elements. -/
  | typeError
deriving DecidableEq, Repr

/-- The entity kinds of `TARGET_DICT` (its keys `mp`, `initiative`, `attendance`). -/
inductive Entity where
  | mp
  | initiative
  | attendance
deriving DecidableEq, Repr

/-- One entry of `TARGET_DICT`: the per-entity configuration dictionary. -/
structure TypeParams where
  path : String
  type_string : String
  legislature_label : String
  id_label : String
  /-- present only for the keys that carry `session_label`. -/
  session_label : Option String
  /-- present only for the keys that carry `number_label`. -/
  number_label : Option String
deriving DecidableEq, Repr

/-- `TARGET_DICT` from the source, as a function on the fixed key set. -/
def TARGET_DICT : Entity → TypeParams
  | .mp =>
    { path := "/DeputadoGP/Paginas/Deputados.aspx?more=1"
      type_string := "g_4090e9c6_d794_4506_9ff9_3e6f8d30ec2d"
      legislature_label := "Legislatura"
      id_label := "hplNome"
      session_label := none
      number_label := none }
  | .initiative =>
    { path := "/ActividadeParlamentar/Paginas/IniciativasLegislativas.aspx"
      type_string := "g_889e27d8_462c_47cc_afea_c4a07765d8c7"
      legislature_label := "ddlLeg"
      id_label := "hplTitulo"
      session_label := some "ddlSL"
      number_label := none }
  | .attendance =>
    { path := "/DeputadoGP/Paginas/reunioesplenarias.aspx"
      type_string := "g_90441d47_53a9_460e_a62f_b50c50d57276"
      legislature_label := "Legislatura"
      id_label := "hplData"
      session_label := none
      number_label := some "n.ยบ" }

/-- `TIMEOUT = 20`: bound (in seconds) of every `WebDriverWait`. -/
def TIMEOUT : Nat := 20

/-- `CACHE_DIR = 'cache'`. -/
def CACHE_DIR : String := "cache"

/-- `RESULTS_PER_PAGE = 20`. -/
def RESULTS_PER_PAGE : Nat := 20

/-- An identifier extracted for one entity: a plain link token for `mp` and
`initiative`, a `(token, session number)` pair for `attendance`. -/
inductive EntityId where
  | plain (token : String)
  | att (token : String) (number : String)
deriving DecidableEq, Repr

/-- Value of a digit string, as `int()` computes it on a `\d+` match. -/
def digitStrToNat (s : String) : Nat :=
  s.data.foldl (fun acc c => 10 * acc + (c.toNat - 48)) 0

/-- Models the Python `int()` builtin on the strings this program passes to
it: a run of decimal digits parses to its value, anything else (the
non-numeric tokens a malformed link could produce) raises `ValueError`.
(Leading sign and surrounding whitespace, which `int()` would also accept,
never occur in this program's inputs and are not modelled.) -/
def pyInt (s : String) : Except PyError Int :=
  if s ≠ "" ∧ s.data.all Char.isDigit then .ok (digitStrToNat s)
  else .error .valueError

/-- First maximal run of decimal digits of a character list, if any:
the match of `re.search(r'(\d+)', ...)`. -/
def firstDigitRunAux : List Char → Option (List Char)
  | [] => none
  | c :: cs =>
    if c.isDigit then some (c :: cs.takeWhile Char.isDigit)
    else firstDigitRunAux cs

/-- `re.search(r'(\d+)', s).group()`: the first run of digits of `s`,
or `none` when the search fails (so that `.group()` raises). -/
def firstDigitRun (s : String) : Option String :=
  (firstDigitRunAux s.data).map List.asString

/-- `math.ceil(results / RESULTS_PER_PAGE)` computed on ℕ.  The source
divides two Python ints (exact in the realistic range) and takes the
ceiling; `c1_page_count` proves this equals the rational ceiling
`⌈results / RESULTS_PER_PAGE⌉`. -/
def pageCountOfResults (results : Nat) : Nat :=
  (results + RESULTS_PER_PAGE - 1) / RESULTS_PER_PAGE

/-- Lines 174-176 of the source: read the results-counter text, take the
first run of digits as the result count (`AttributeError` when there is
none, since `re.search` returned `None`), and derive the page count. -/
def page_count_text (txt : String) : Except PyError Nat :=
  match firstDigitRun txt with
  | none => .error .attributeError
  | some ds => .ok (pageCountOfResults (digitStrToNat ds))

theorem pageCountOfResults_eq_ceil (n : Nat) :
    (pageCountOfResults n : Int) = ⌈(n : ℚ) / (RESULTS_PER_PAGE : ℚ)⌉ := by
  have h20 : (0 : ℚ) < 20 := by norm_num
  have hm : n + 20 - 1 = n + 19 := by omega
  have h1 : n ≤ ((n + 19) / 20) * 20 := by omega
  have h2 : ((n + 19) / 20) * 20 ≤ n + 19 := by omega
  have hq1 : (n : ℚ) ≤ (((n + 19) / 20 : Nat) : ℚ) * 20 := by exact_mod_cast h1
  have hq2 : (((n + 19) / 20 : Nat) : ℚ) * 20 ≤ (n : ℚ) + 19 := by exact_mod_cast h2
  have ha : (n : ℚ) / 20 ≤ (((n + 19) / 20 : Nat) : ℚ) := by
    rw [div_le_iff₀ h20]; linarith
  have hb : (((n + 19) / 20 : Nat) : ℚ) - 1 < (n : ℚ) / 20 := by
    rw [sub_lt_iff_lt_add, show (n : ℚ) / 20 + 1 = ((n : ℚ) + 20) / 20 from by ring,
      lt_div_iff₀ h20]
    linarith
  rw [pageCountOfResults, RESULTS_PER_PAGE, hm,
    show (((20 : Nat)) : ℚ) = (20 : ℚ) from by norm_cast]
  symm
  rw [Int.ceil_eq_iff]
  constructor
  · exact lt_of_eq_of_lt (by norm_cast) hb
  · exact le_of_le_of_eq ha (by norm_cast)

/-- Oracle for the Selenium driver and the remote listing.  A `false` flag
means the corresponding wait/click raises `WebDriverException` (e.g. a
timeout); the element lists and the counter text are functions of the
legislature currently selected and of the page shown.  `allLegislatures`
and `selectedLegislatures` are the dropdown option values matched by the
two XPath queries of `get_legislatures`. -/
structure Site where
  allLegislatures : List String
  selectedLegislatures : List String
  selectOk : String → Bool
  clearOk : String → Bool
  searchOk : String → Bool
  counterText : String → String
  pageOk : String → Nat → Bool
  pageHrefs : String → Nat → List String
  pageNumberTexts : String → Nat → List String

/-- The mutable state of a `ParliamentIDScraper` instance: `self.id_list`
(a `defaultdict(list)`, kept in key-insertion order), and the two fields of
`self.cache_dict` (`'ids'`, a Python set, and `'legislatures'`, a list).
A Python set is modelled as the duplicate-free list of its elements in
iteration order (iteration order is arbitrary in Python, so no property
below depends on it). -/
structure ScrState where
  idList : List (String × List EntityId)
  cacheIds : List EntityId
  cacheLegs : List String
deriving DecidableEq

/-- Models `self.id_list[k].extend(v)` on a `defaultdict(list)`: extends the
entry of `k` in place, creating it (even for empty `v`) when missing. -/
def dictExtend (d : List (String × List EntityId)) (k : String)
    (v : List EntityId) : List (String × List EntityId) :=
  match d with
  | [] => [(k, v)]
  | (k', w) :: rest =>
    if k' = k then (k', w ++ v) :: rest else (k', w) :: dictExtend rest k v

/-- Lookup in the model of `self.id_list`; a missing key reads as `[]`
(what `defaultdict(list)` would create). -/
def dictLookup (d : List (String × List EntityId)) (k : String) :
    List EntityId :=
  match d with
  | [] => []
  | (k', w) :: rest => if k' = k then w else dictLookup rest k

/-- All recorded identifiers of the run, in order:
`chain.from_iterable(self.id_list.values())`. -/
def flattenIds (d : List (String × List EntityId)) : List EntityId :=
  (d.map Prod.snd).flatten

/-- Python `str.split`/`str.rsplit` on a one-character separator (they
agree when no maxsplit is given): `"a=b=c"` gives `["a","b","c"]`,
`"abc"` gives `["abc"]`, `"a="` gives `["a",""]`. -/
def splitOnChar (c : Char) : List Char → List (List Char)
  | [] => [[]]
  | ch :: rest =>
    match splitOnChar c rest with
    | [] => [[]]
    | h :: t => if ch = c then [] :: h :: t else (ch :: h) :: t

/-- Line 133 of the source: `link.get_attribute('href').rsplit('=')[1]` —
the part between the first `=` of the link and the next one, if any (an
`IndexError` when the link has no `=` at all; e.g.
`".../Biografia.aspx?BID=3"` yields `"3"`). -/
def extract_token (href : String) : Except PyError String :=
  match (splitOnChar '=' href.data).get? 1 with
  | some t => .ok t.asString
  | none => .error .indexError

/-- `get_ids` (lines 127-139): the identifiers of the current page.  `toks`
comes from the identifier links; for `attendance` it is zipped positionally
with the session-number link texts.  The result is a Python set. -/
def get_ids (entity : Entity) (hrefs numberTexts : List String) :
    Except PyError (List EntityId) :=
  match hrefs.mapM extract_token with
  | .error e => .error e
  | .ok toks =>
    if entity = .attendance then
      .ok (((toks.zip numberTexts).map (fun p => EntityId.att p.1 p.2)).dedup)
    else
      .ok ((toks.map EntityId.plain).dedup)

/-- `process_page` (lines 182-197).  The page-switch postback (pages ≥ 2)
and the wait for the page indicator are driver interactions covered by
`site.pageOk`; then the page's identifiers are extracted, the not-yet-seen
ones are appended to `self.id_list[legislature]`, and — only when caching
is enabled — the whole extracted set is unioned into the seen set.  On an
error the state is unchanged (the Python mutations happen after the raise
points). -/
def process_page (entity : Entity) (site : Site) (cacheFlag : Bool)
    (leg : String) (n : Nat) (st : ScrState) : Except PyError ScrState :=
  if site.pageOk leg n = false then .error .webDriver
  else
    match get_ids entity (site.pageHrefs leg n) (site.pageNumberTexts leg n) with
    | .error e => .error e
    | .ok ids =>
      let st1 : ScrState :=
        { st with idList :=
            dictExtend st.idList leg (ids.filter (fun x => decide (x ∉ st.cacheIds))) }
      if cacheFlag then .ok { st1 with cacheIds := st1.cacheIds.union ids }
      else .ok st1

/-- The page loop of `process_legislature` (line 177-178):
`for page_number in range(1, pages + 1)`.  The returned pair carries the
state reached so far together with the first uncaught error, if any — a
Python exception aborts the loop but the in-place mutations of the earlier
pages persist. -/
def process_pages (entity : Entity) (site : Site) (cacheFlag : Bool)
    (leg : String) : List Nat → ScrState → ScrState × Option PyError
  | [], st => (st, none)
  | n :: ns, st =>
    match process_page entity site cacheFlag leg n st with
    | .error e => (st, some e)
    | .ok st' => process_pages entity site cacheFlag leg ns st'

/-- `process_legislature` (lines 157-180): select the legislature, clear
the session filter for kinds that have one, trigger the search and its two
waits, derive the page count from the results counter, process all pages,
and finally — only if caching is enabled — append the legislature to the
cache's processed list. -/
def process_legislature (entity : Entity) (site : Site) (cacheFlag : Bool)
    (leg : String) (st : ScrState) : ScrState × Option PyError :=
  if site.selectOk leg = false then (st, some .webDriver)
  else if (TARGET_DICT entity).session_label.isSome ∧ site.clearOk leg = false then
    (st, some .webDriver)
  else if site.searchOk leg = false then (st, some .webDriver)
  else
    match page_count_text (site.counterText leg) with
    | .error e => (st, some e)
    | .ok pages =>
      match process_pages entity site cacheFlag leg (List.range' 1 pages) st with
      | (st', some e) => (st', some e)
      | (st', none) =>
        if cacheFlag then ({ st' with cacheLegs := st'.cacheLegs ++ [leg] }, none)
        else (st', none)

/-- `process_legislatures` (lines 141-155): iterate the legislatures,
skipping one only when it is already cached AND `full` mode is on; each
legislature runs under `try/except WebDriverException`, so exactly the
driver-signalled failures are caught (and the loop continues) while any
other exception aborts the whole run. -/
def process_legislatures (entity : Entity) (site : Site) (full cacheFlag : Bool) :
    List String → ScrState → ScrState × Option PyError
  | [], st => (st, none)
  | leg :: rest, st =>
    if leg ∈ st.cacheLegs ∧ full = true then
      process_legislatures entity site full cacheFlag rest st
    else
      match process_legislature entity site cacheFlag leg st with
      | (st', none) => process_legislatures entity site full cacheFlag rest st'
      | (st', some e) =>
        if e = .webDriver then process_legislatures entity site full cacheFlag rest st'
        else (st', some e)

/-- `get_legislatures` (lines 217-226): every non-empty dropdown value in
full mode, otherwise only the currently selected value(s). -/
def get_legislatures (site : Site) (full : Bool) : List String :=
  if full then site.allLegislatures else site.selectedLegislatures

/-- A JSON value as it appears in the `'ids'` list of a cache file: the
scraper only ever serializes strings (plain tokens) and two-element arrays
(the `(token, number)` tuples of the `attendance` kind, which `json.dump`
writes as arrays). -/
inductive JVal where
  | jstr (s : String)
  | jarr (token : String) (number : String)
deriving DecidableEq, Repr

/-- Contents of a cache file: either text that `json.load` rejects, or the
parsed object with its `'legislatures'` and `'ids'` entries. -/
inductive CacheFileContent where
  | corrupt
  | valid (legislatures : List String) (ids : List JVal)
deriving DecidableEq, Repr

/-- The filesystem state the cache code observes: whether `CACHE_DIR`
exists, whether `os.makedirs(CACHE_DIR)` would succeed, and the cache file
for the current entity (`none` when absent or unopenable). -/
structure FS where
  cacheDirExists : Bool
  dirCreatable : Bool
  cacheFile : Option CacheFileContent
deriving DecidableEq, Repr

/-- The in-memory cache dictionary: `{'legislatures': [...], 'ids': set(...)}`.
The set is modelled as its duplicate-free iteration list. -/
structure CacheRecord where
  legislatures : List String
  ids : List EntityId
deriving DecidableEq, Repr

/-- The fresh dictionary built at the top of `get_cache`. -/
def emptyCacheRecord : CacheRecord := { legislatures := [], ids := [] }

/-- `set()` applied to a loaded JSON `'ids'` list (line 124 of the source):
strings hash fine, but a JSON array was loaded as a Python `list`, which is
unhashable, so `set()` raises `TypeError`. -/
def jvalToIdent : JVal → Except PyError EntityId
  | .jstr s => .ok (.plain s)
  | .jarr _ _ => .error .typeError

/-- `set(cache_dict['ids'])`: hash each element (first unhashable element
raises), then collapse duplicates. -/
def setIds (l : List JVal) : Except PyError (List EntityId) := do
  let ids ← l.mapM jvalToIdent
  pure ids.dedup

/-- `get_cache` (lines 96-125).  Caching disabled: fresh dictionary.
Cache directory missing: `os.makedirs` is attempted and an `OSError` is
only logged — either way the fresh dictionary is returned.  Directory
present: the cache file is opened (an `IOError` is caught, logged, fresh
dictionary), then `json.load` runs with no exception handler, so corrupt
contents raise `ValueError` and an `'ids'` list holding arrays raises
`TypeError` at the `set()` call. -/
def get_cache (cacheFlag : Bool) (fs : FS) : Except PyError CacheRecord :=
  if cacheFlag = false then .ok emptyCacheRecord
  else if fs.cacheDirExists = false then .ok emptyCacheRecord
  else
    match fs.cacheFile with
    | none => .ok emptyCacheRecord
    | some .corrupt => .error .valueError
    | some (.valid legs jids) =>
      match setIds jids with
      | .error e => .error e
      | .ok ids => .ok { legislatures := legs, ids := ids }

/-- Serialization of one identifier by `json.dump`: a tuple becomes a JSON
array. -/
def identToJVal : EntityId → JVal
  | .plain s => .jstr s
  | .att t n => .jarr t n

/-- Lines 245-250 of `main`: `cache_dict['ids'] = list(cache_dict['ids'])`
followed by `json.dump` — the file the save writes. -/
def save_record (r : CacheRecord) : CacheFileContent :=
  .valid r.legislatures (r.ids.map identToJVal)

/-- Key order of Python `sorted(..., key=...)` lifted to precomputed
`(element, key)` pairs. -/
def pairLE {α : Type} (x y : α × Int) : Prop := x.2 ≤ y.2

instance {α : Type} : DecidableRel (@pairLE α) :=
  fun x y => inferInstanceAs (Decidable (x.2 ≤ y.2))

instance {α : Type} : IsTotal (α × Int) pairLE := ⟨fun x y => le_total x.2 y.2⟩

instance {α : Type} : IsTrans (α × Int) pairLE := ⟨fun _ _ _ h1 h2 => le_trans h1 h2⟩

/-- Python `sorted(l, key=key)` where the key function can raise: every key
is computed (first failure raises), then the list is sorted by key value
(`sorted` is a stable comparison sort; only the by-key ordering and the
permutation property matter below). -/
def sortByPyKey {α : Type} (key : α → Except PyError Int) (l : List α) :
    Except PyError (List α) := do
  let keyed ← l.mapM (fun a => do let k ← key a; pure (a, k))
  pure ((keyed.insertionSort pairLE).map Prod.fst)

/-- The element written per line in the non-`attendance` branch of `main`:
the ids are plain string tokens there (`int(x)` on the reachable shapes);
an `attendance` pair in this branch would make Python's `int()` raise a
`TypeError`, modelled identically. -/
def tokenOfIdent : EntityId → Except PyError String
  | .plain s => .ok s
  | .att _ _ => .error .typeError

/-- Sort key of the non-`attendance` branch: `key=int`. -/
def keyOfIdent (i : EntityId) : Except PyError Int :=
  match i with
  | .plain s => pyInt s
  | .att _ _ => .error .typeError

/-- The `(token, number)` pair written per line in the `attendance` branch
of `main`; ids are pairs on every reachable run of that branch (a plain
string here would be unpacked/int-keyed differently by Python — modelled
as the same `TypeError` family of shape errors). -/
def pairOfIdent : EntityId → Except PyError (String × String)
  | .att t n => .ok (t, n)
  | .plain _ => .error .typeError

/-- Sort key of the `attendance` branch: `key=lambda x: int(x[0])`. -/
def keyOfPair (p : String × String) : Except PyError Int := pyInt p.1

/-- Lines 232-244 of `main`: flatten `id_list.values()`, collapse to a set,
sort by the numeric token value and render the output file's contents.
The `attendance` branch writes `token,number` plus a newline per id and
then one extra final newline; the other branch joins tokens with newlines
and appends the final newline. -/
def output_content (entity : Entity) (idList : List (String × List EntityId)) :
    Except PyError String :=
  let ids := (flattenIds idList).dedup
  if entity = .attendance then
    match ids.mapM pairOfIdent with
    | .error e => .error e
    | .ok pairs =>
      match sortByPyKey keyOfPair pairs with
      | .error e => .error e
      | .ok sortedPairs =>
        .ok (String.join (sortedPairs.map (fun p => p.1 ++ "," ++ p.2 ++ "\n")) ++ "\n")
  else
    match ids.mapM tokenOfIdent with
    | .error e => .error e
    | .ok toks =>
      match sortByPyKey pyInt toks with
      | .error e => .error e
      | .ok sortedToks => .ok (String.intercalate "\n" sortedToks ++ "\n")

/-- Result of one whole run: the output file's contents (when `main`
reached the write), the cache file it saved (when it saved one), and the
exception the process died with, if any. -/
structure MainResult where
  output : Option String
  savedCache : Option CacheFileContent
  error : Option PyError
deriving DecidableEq, Repr

/-- The initial `ScrState` built in `__init__`: an empty `id_list` and the
loaded cache dictionary. -/
def initState (r : CacheRecord) : ScrState :=
  { idList := [], cacheIds := r.ids, cacheLegs := r.legislatures }

/-- One whole run: `ParliamentIDScraper(entity, driver, full, cache)`
followed by `scraper.main()` (lines 228-250).  `get_cache` runs in the
constructor, so its uncaught exceptions abort before any crawling; an
uncaught crawl exception aborts before the output file is written; the
output file is written before the cache save, so a failing save (e.g.
`open` under a `CACHE_DIR` that could not be created) still leaves the
output file behind.  (Named `scraper_main` because a bare `main` is the
reserved executable entry point.) -/
def scraper_main (entity : Entity) (site : Site) (full cacheFlag : Bool) (fs : FS) :
    MainResult :=
  match get_cache cacheFlag fs with
  | .error e => { output := none, savedCache := none, error := some e }
  | .ok rec =>
    let legs := get_legislatures site full
    match process_legislatures entity site full cacheFlag legs (initState rec) with
    | (_, some e) => { output := none, savedCache := none, error := some e }
    | (st, none) =>
      match output_content entity st.idList with
      | .error e => { output := none, savedCache := none, error := some e }
      | .ok content =>
        if cacheFlag = false then
          { output := some content, savedCache := none, error := none }
        else if fs.cacheDirExists || fs.dirCreatable then
          { output := some content
            savedCache := some (save_record { legislatures := st.cacheLegs, ids := st.cacheIds })
            error := none }
        else
          { output := some content, savedCache := none, error := some .oserror }

/-! ### Helper lemmas about the crawl state -/

theorem process_page_ok_cacheLegs (entity : Entity) (site : Site)
    (cacheFlag : Bool) (leg : String) (n : Nat) (st st' : ScrState)
    (h : process_page entity site cacheFlag leg n st = .ok st') :
    st'.cacheLegs = st.cacheLegs := by
  unfold process_page at h
  split at h
  · exact absurd h (by simp)
  · split at h
    · exact absurd h (by simp)
    · split at h <;> (injection h with h; subst h; rfl)

theorem process_pages_cacheLegs (entity : Entity) (site : Site)
    (cacheFlag : Bool) (leg : String) (ns : List Nat) (st : ScrState) :
    (process_pages entity site cacheFlag leg ns st).1.cacheLegs = st.cacheLegs := by
  induction ns generalizing st with
  | nil => rfl
  | cons n ns ih =>
    simp only [process_pages]
    cases hpp : process_page entity site cacheFlag leg n st with
    | error e => rfl
    | ok st'' =>
      rw [ih st'']
      exact process_page_ok_cacheLegs entity site cacheFlag leg n st st'' hpp

theorem process_pages_eq_cacheLegs (entity : Entity) (site : Site)
    (cacheFlag : Bool) (leg : String) (ns : List Nat) (st st' : ScrState)
    (eo : Option PyError)
    (h : process_pages entity site cacheFlag leg ns st = (st', eo)) :
    st'.cacheLegs = st.cacheLegs := by
  have hp := process_pages_cacheLegs entity site cacheFlag leg ns st
  rw [h] at hp
  exact hp

theorem process_legislature_fail_cacheLegs (entity : Entity) (site : Site)
    (cacheFlag : Bool) (leg : String) (st st' : ScrState) (e : PyError)
    (h : process_legislature entity site cacheFlag leg st = (st', some e)) :
    st'.cacheLegs = st.cacheLegs := by
  unfold process_legislature at h
  split at h
  · injection h with h1 h2; subst h1; rfl
  · split at h
    · injection h with h1 h2; subst h1; rfl
    · split at h
      · injection h with h1 h2; subst h1; rfl
      · split at h
        · injection h with h1 h2; subst h1; rfl
        · split at h
          next st'' e' hpages =>
            injection h with h1 h2
            subst h1
            exact process_pages_eq_cacheLegs _ _ _ _ _ _ _ _ hpages
          next st'' hpages =>
            split at h
            · injection h with h1 h2; exact absurd h2.symm (by simp)
            · injection h with h1 h2; exact absurd h2.symm (by simp)

theorem process_legislature_ok_cacheLegs (entity : Entity) (site : Site)
    (leg : String) (st st' : ScrState)
    (h : process_legislature entity site true leg st = (st', none)) :
    st'.cacheLegs = st.cacheLegs ++ [leg] := by
  unfold process_legislature at h
  split at h
  · injection h with h1 h2; exact absurd h2.symm (by simp)
  · split at h
    · injection h with h1 h2; exact absurd h2.symm (by simp)
    · split at h
      · injection h with h1 h2; exact absurd h2.symm (by simp)
      · split at h
        · injection h with h1 h2; exact absurd h2.symm (by simp)
        · split at h
          next st'' e' hpages =>
            injection h with h1 h2; exact absurd h2.symm (by simp)
          next st'' hpages =>
            rw [if_pos rfl] at h
            injection h with h1 h2
            subst h1
            simp only [process_pages_eq_cacheLegs _ _ _ _ _ _ _ _ hpages]

/-! ### C1: page count from the results counter -/

/-- C1: for every results-counter text whose first run of digits denotes
the integer count, the derived page count is `ceil(count / 20)` (stated as
the exact rational ceiling); in particular a counter text with count 123
yields 7 pages and one with count 100 yields exactly 5, not 6. -/
theorem c1_page_count (txt ds : String)
    (h : firstDigitRun txt = some ds) :
    page_count_text txt = .ok (pageCountOfResults (digitStrToNat ds))
    ∧ (pageCountOfResults (digitStrToNat ds) : Int)
        = ⌈(digitStrToNat ds : ℚ) / (RESULTS_PER_PAGE : ℚ)⌉
    ∧ page_count_text "123 Resultados encontrados" = .ok 7
    ∧ page_count_text "100 Resultados encontrados" = .ok 5 := by
  refine ⟨?_, pageCountOfResults_eq_ceil _, rfl, rfl⟩
  unfold page_count_text
  rw [h]

theorem c1_page_count_witness :
    page_count_text "123 Resultados encontrados"
        = .ok (pageCountOfResults (digitStrToNat "123"))
    ∧ (pageCountOfResults (digitStrToNat "123") : Int)
        = ⌈(digitStrToNat "123" : ℚ) / (RESULTS_PER_PAGE : ℚ)⌉
    ∧ page_count_text "123 Resultados encontrados" = .ok 7
    ∧ page_count_text "100 Resultados encontrados" = .ok 5 :=
  c1_page_count "123 Resultados encontrados" "123" rfl

/-! ### C2: partition isolation of driver failures -/

/-- C2: a failing partition never changes the cache's processed-legislature
list; a `WebDriverException` is caught at the partition boundary, so the
orchestrator continues with the remaining partitions from the state the
failed partition left behind; and (with caching enabled) a partition is
appended to the processed list exactly when all its pages completed without
error. -/
theorem c2_partition_isolation (entity : Entity) (site : Site)
    (full cacheFlag : Bool) (leg : String) (rest : List String)
    (st st' : ScrState) (eo : Option PyError)
    (hrun : process_legislature entity site cacheFlag leg st = (st', eo)) :
    (eo.isSome → st'.cacheLegs = st.cacheLegs)
    ∧ (eo = some .webDriver → ¬(leg ∈ st.cacheLegs ∧ full = true) →
        process_legislatures entity site full cacheFlag (leg :: rest) st
          = process_legislatures entity site full cacheFlag rest st')
    ∧ (eo = none → cacheFlag = true → st'.cacheLegs = st.cacheLegs ++ [leg]) := by
  refine ⟨?_, ?_, ?_⟩
  · intro hs
    obtain ⟨e, he⟩ := Option.isSome_iff_exists.mp hs
    subst he
    exact process_legislature_fail_cacheLegs entity site cacheFlag leg st st' e hrun
  · intro he hskip
    subst he
    simp only [process_legislatures]
    rw [if_neg hskip, hrun]
    simp
  · intro he hc
    subst he
    subst hc
    exact process_legislature_ok_cacheLegs entity site leg st st' hrun

/-- Concrete site whose only legislature times out on the search button. -/
def siteSearchFail : Site :=
  { allLegislatures := ["I"], selectedLegislatures := ["I"],
    selectOk := fun _ => true, clearOk := fun _ => true,
    searchOk := fun _ => false,
    counterText := fun _ => "9 Resultados encontrados",
    pageOk := fun _ _ => true,
    pageHrefs := fun _ _ => ["Biografia.aspx?BID=3"],
    pageNumberTexts := fun _ _ => [] }

theorem c2_partition_isolation_witness :
    ((some PyError.webDriver).isSome →
        (ScrState.mk [] [] []).cacheLegs = (ScrState.mk [] [] []).cacheLegs)
    ∧ (some PyError.webDriver = some .webDriver →
        ¬("I" ∈ (ScrState.mk [] [] []).cacheLegs ∧ true = true) →
        process_legislatures .mp siteSearchFail true true ["I"] (ScrState.mk [] [] [])
          = process_legislatures .mp siteSearchFail true true [] (ScrState.mk [] [] []))
    ∧ ((some PyError.webDriver : Option PyError) = none → true = true →
        (ScrState.mk [] [] []).cacheLegs = (ScrState.mk [] [] []).cacheLegs ++ ["I"]) :=
  c2_partition_isolation .mp siteSearchFail true true "I" []
    (ScrState.mk [] [] []) (ScrState.mk [] [] []) (some .webDriver) rfl

/-! ### C3: a digit-free results counter aborts the run -/

/-- Concrete site where legislature `"A"` reaches the counter but the
counter text has no digits, while `"B"` would process fine. -/
def siteNoDigits : Site :=
  { allLegislatures := ["A", "B"], selectedLegislatures := ["A", "B"],
    selectOk := fun _ => true, clearOk := fun _ => true, searchOk := fun _ => true,
    counterText := fun leg => if leg = "A" then "Sem Resultados" else "1 Resultado",
    pageOk := fun _ _ => true,
    pageHrefs := fun _ _ => ["Biografia.aspx?BID=7"],
    pageNumberTexts := fun _ _ => [] }

/-- C3 counterexample: with partitions `["A", "B"]` where `"A"`'s counter
text has no digits, the run does NOT continue with `"B"`: the uncaught
`AttributeError` aborts the whole run with the state untouched ( `"B"` is
never processed and never cached, although it would succeed). -/
theorem c3_counterexample :
    process_legislatures .mp siteNoDigits false true ["A", "B"]
        (ScrState.mk [] [] [])
      = (ScrState.mk [] [] [], some .attributeError)
    ∧ (process_legislatures .mp siteNoDigits false true ["A", "B"]
        (ScrState.mk [] [] [])).2 ≠ none := by
  exact ⟨rfl, by decide⟩

/-- C3 amended: a partition whose results-counter text contains no digits
raises `AttributeError`, which the `except WebDriverException` handler does
not catch: instead of being recovered at the partition boundary, the error
aborts the whole run (the remaining partitions are not processed). -/
theorem c3_no_digits_aborts (entity : Entity) (site : Site)
    (full cacheFlag : Bool) (leg : String) (rest : List String) (st : ScrState)
    (hsel : site.selectOk leg = true) (hclear : site.clearOk leg = true)
    (hsearch : site.searchOk leg = true)
    (hnod : firstDigitRun (site.counterText leg) = none)
    (hskip : ¬(leg ∈ st.cacheLegs ∧ full = true)) :
    process_legislatures entity site full cacheFlag (leg :: rest) st
      = (st, some .attributeError) := by
  have hpl : process_legislature entity site cacheFlag leg st
      = (st, some .attributeError) := by
    unfold process_legislature
    rw [hsel, hclear, hsearch]
    simp only [page_count_text, hnod]
    simp
  simp only [process_legislatures]
  rw [if_neg hskip, hpl]
  simp

/-- Concrete single-legislature site with a digit-free counter text. -/
def siteNoDigitsOne : Site :=
  { allLegislatures := ["A"], selectedLegislatures := ["A"],
    selectOk := fun _ => true, clearOk := fun _ => true, searchOk := fun _ => true,
    counterText := fun _ => "Sem Resultados",
    pageOk := fun _ _ => true,
    pageHrefs := fun _ _ => [],
    pageNumberTexts := fun _ _ => [] }

theorem c3_no_digits_aborts_witness :
    process_legislatures .mp siteNoDigitsOne false true ["A"] (ScrState.mk [] [] [])
      = (ScrState.mk [] [] [], some .attributeError) :=
  c3_no_digits_aborts .mp siteNoDigitsOne false true "A" [] (ScrState.mk [] [] [])
    rfl rfl rfl rfl (by simp)

/-! ### C5: the cached-partition skip fires only in full mode -/

/-- C5: a partition is skipped (state untouched, processing of the
remaining partitions continues directly) precisely when it is already in
the cache's processed list AND full mode is on; in every other case —
including a cached partition in a default (non-full) run — the partition is
processed. -/
theorem c5_skip_iff (entity : Entity) (site : Site) (full cacheFlag : Bool)
    (leg : String) (rest : List String) (st : ScrState) :
    ((leg ∈ st.cacheLegs ∧ full = true) →
        process_legislatures entity site full cacheFlag (leg :: rest) st
          = process_legislatures entity site full cacheFlag rest st)
    ∧ (¬(leg ∈ st.cacheLegs ∧ full = true) →
        process_legislatures entity site full cacheFlag (leg :: rest) st
          = match process_legislature entity site cacheFlag leg st with
            | (st', none) => process_legislatures entity site full cacheFlag rest st'
            | (st', some e) =>
              if e = .webDriver then
                process_legislatures entity site full cacheFlag rest st'
              else (st', some e)) := by
  constructor
  · intro hc
    simp only [process_legislatures]
    rw [if_pos hc]
  · intro hc
    simp only [process_legislatures]
    rw [if_neg hc]

/-- Concrete quiet site for the C5 witness: one legislature with an empty
result list. -/
def siteQuiet : Site :=
  { allLegislatures := ["I"], selectedLegislatures := ["I"],
    selectOk := fun _ => true, clearOk := fun _ => true, searchOk := fun _ => true,
    counterText := fun _ => "0 Resultados encontrados",
    pageOk := fun _ _ => true,
    pageHrefs := fun _ _ => [],
    pageNumberTexts := fun _ _ => [] }

theorem c5_skip_iff_witness :
    (("I" ∈ (ScrState.mk [] [] ["I"]).cacheLegs ∧ true = true) →
        process_legislatures .mp siteQuiet true true ["I"] (ScrState.mk [] [] ["I"])
          = process_legislatures .mp siteQuiet true true [] (ScrState.mk [] [] ["I"]))
    ∧ (¬("I" ∈ (ScrState.mk [] [] ["I"]).cacheLegs ∧ true = true) →
        process_legislatures .mp siteQuiet true true ["I"] (ScrState.mk [] [] ["I"])
          = match process_legislature .mp siteQuiet true "I" (ScrState.mk [] [] ["I"]) with
            | (st', none) => process_legislatures .mp siteQuiet true true [] st'
            | (st', some e) =>
              if e = .webDriver then
                process_legislatures .mp siteQuiet true true [] st'
              else (st', some e)) :=
  c5_skip_iff .mp siteQuiet true true "I" [] (ScrState.mk [] [] ["I"])

/-! ### C4: cross-page deduplication within a run -/

theorem get_ids_ok_nodup (entity : Entity) (hrefs numberTexts : List String)
    (ids : List EntityId)
    (h : get_ids entity hrefs numberTexts = .ok ids) : ids.Nodup := by
  unfold get_ids at h
  split at h
  · exact absurd h (by simp)
  · split at h <;> (injection h with h; subst h; exact List.nodup_dedup _)

/-- Invariant of the crawl state when caching is enabled: the run's
recorded identifiers contain no duplicate anywhere, and every recorded
identifier is already in the cache's seen set. -/
def RunInv (st : ScrState) : Prop :=
  (flattenIds st.idList).Nodup ∧ ∀ x ∈ flattenIds st.idList, x ∈ st.cacheIds

theorem flattenIds_dictExtend (d : List (String × List EntityId))
    (k : String) (v : List EntityId) :
    List.Perm (flattenIds (dictExtend d k v)) (flattenIds d ++ v) := by
  induction d with
  | nil => simp [flattenIds, dictExtend]
  | cons p rest ih =>
    obtain ⟨k', w⟩ := p
    by_cases hk : k' = k
    · subst hk
      have hd : dictExtend ((k', w) :: rest) k' v = (k', w ++ v) :: rest := by
        simp [dictExtend]
      rw [hd]
      simp only [flattenIds, List.map_cons, List.flatten_cons]
      have h1 : (w ++ v) ++ (rest.map Prod.snd).flatten
          = w ++ (v ++ (rest.map Prod.snd).flatten) := by rw [List.append_assoc]
      have h2 : (w ++ (rest.map Prod.snd).flatten) ++ v
          = w ++ ((rest.map Prod.snd).flatten ++ v) := by rw [List.append_assoc]
      rw [h1, h2]
      exact List.Perm.append_left w List.perm_append_comm
    · have hd : dictExtend ((k', w) :: rest) k v = (k', w) :: dictExtend rest k v := by
        simp [dictExtend, hk]
      rw [hd]
      simp only [flattenIds, List.map_cons, List.flatten_cons]
      simp only [flattenIds] at ih
      have h2 : (w ++ (rest.map Prod.snd).flatten) ++ v
          = w ++ ((rest.map Prod.snd).flatten ++ v) := by rw [List.append_assoc]
      rw [h2]
      exact List.Perm.append_left w (ih.trans List.Perm.rfl)

theorem process_page_inv (entity : Entity) (site : Site) (leg : String)
    (n : Nat) (st st' : ScrState)
    (h : process_page entity site true leg n st = .ok st')
    (hinv : RunInv st) :
    RunInv st' ∧ ∀ x ∈ st.cacheIds, x ∈ st'.cacheIds := by
  unfold process_page at h
  split at h
  · exact absurd h (by simp)
  · split at h
    · exact absurd h (by simp)
    · next ids hg =>
      have hnodup : ids.Nodup := get_ids_ok_nodup _ _ _ _ hg
      rw [if_pos rfl] at h
      injection h with h
      subst h
      constructor
      · have hperm := flattenIds_dictExtend st.idList leg
          (ids.filter (fun x => decide (x ∉ st.cacheIds)))
        constructor
        · refine hperm.symm.nodup ?_
          refine List.Nodup.append hinv.1 (hnodup.filter _) ?_
          intro x hx hxf
          have hxc := hinv.2 x hx
          have := (List.mem_filter.mp hxf).2
          simp at this
          exact this hxc
        · intro x hx
          have hx' := hperm.subset hx
          rcases List.mem_append.mp hx' with hl | hr
          · exact List.mem_union_iff.mpr (Or.inl (hinv.2 x hl))
          · exact List.mem_union_iff.mpr (Or.inr (List.mem_filter.mp hr).1)
      · intro x hx
        exact List.mem_union_iff.mpr (Or.inl hx)

theorem process_pages_inv (entity : Entity) (site : Site) (leg : String)
    (ns : List Nat) (st : ScrState) (hinv : RunInv st) :
    RunInv (process_pages entity site true leg ns st).1 := by
  induction ns generalizing st with
  | nil => exact hinv
  | cons n ns ih =>
    simp only [process_pages]
    cases hpp : process_page entity site true leg n st with
    | error e => exact hinv
    | ok st'' =>
      exact ih st'' (process_page_inv entity site leg n st st'' hpp hinv).1

theorem process_pages_inv_eq (entity : Entity) (site : Site) (leg : String)
    (ns : List Nat) (st st' : ScrState) (eo : Option PyError)
    (h : process_pages entity site true leg ns st = (st', eo))
    (hinv : RunInv st) : RunInv st' := by
  have hp := process_pages_inv entity site leg ns st hinv
  rw [h] at hp
  exact hp

theorem process_legislature_inv_eq (entity : Entity) (site : Site)
    (leg : String) (st st' : ScrState) (eo : Option PyError)
    (h : process_legislature entity site true leg st = (st', eo))
    (hinv : RunInv st) : RunInv st' := by
  unfold process_legislature at h
  split at h
  · injection h with h1 h2; subst h1; exact hinv
  · split at h
    · injection h with h1 h2; subst h1; exact hinv
    · split at h
      · injection h with h1 h2; subst h1; exact hinv
      · split at h
        · injection h with h1 h2; subst h1; exact hinv
        · split at h
          next st'' e' hpages =>
            injection h with h1 h2
            subst h1
            exact process_pages_inv_eq _ _ _ _ _ _ _ hpages hinv
          next st'' hpages =>
            rw [if_pos rfl] at h
            injection h with h1 h2
            subst h1
            have hi : RunInv st'' := process_pages_inv_eq _ _ _ _ _ _ _ hpages hinv
            exact hi

theorem process_legislatures_inv (entity : Entity) (site : Site) (full : Bool)
    (legs : List String) (st : ScrState) (hinv : RunInv st) :
    RunInv (process_legislatures entity site full true legs st).1 := by
  induction legs generalizing st with
  | nil => exact hinv
  | cons leg rest ih =>
    simp only [process_legislatures]
    by_cases hskip : leg ∈ st.cacheLegs ∧ full = true
    · rw [if_pos hskip]; exact ih st hinv
    · rw [if_neg hskip]
      rcases hpl : process_legislature entity site true leg st with ⟨st', eo⟩
      have hinv' := process_legislature_inv_eq entity site leg st st' eo hpl hinv
      rcases eo with _ | e
      · exact ih st' hinv'
      · by_cases he : e = .webDriver
        · subst he; simp only [if_pos rfl]; exact ih st' hinv'
        · simp only [if_neg he]; exact hinv'

theorem dictLookup_sublist (d : List (String × List EntityId)) (k : String) :
    List.Sublist (dictLookup d k) (flattenIds d) := by
  induction d with
  | nil => simp [dictLookup, flattenIds]
  | cons p rest ih =>
    obtain ⟨k', w⟩ := p
    simp only [dictLookup, flattenIds, List.map_cons, List.flatten_cons]
    by_cases hk : k' = k
    · rw [if_pos hk]
      exact List.sublist_append_left w _
    · rw [if_neg hk]
      simp only [flattenIds] at ih
      exact ih.trans (List.sublist_append_right w _)

/-- C4 (amended), general form: with caching enabled, the per-partition
result list of a run started from a freshly loaded cache contains every
identifier at most once — the cross-page and cross-partition deduplication
via the seen set never records an identifier twice. -/
theorem c4_dedup_cached (entity : Entity) (site : Site) (full : Bool)
    (legs : List String) (rec : CacheRecord) (L : String) (x : EntityId) :
    (dictLookup
        (process_legislatures entity site full true legs (initState rec)).1.idList
        L).count x ≤ 1 := by
  have hinv0 : RunInv (initState rec) := by
    constructor
    · simp [initState, flattenIds]
    · intro y hy
      simp [initState, flattenIds] at hy
  have hinv := process_legislatures_inv entity site full legs (initState rec) hinv0
  have hnd := hinv.1
  have hsub := dictLookup_sublist
    (process_legislatures entity site full true legs (initState rec)).1.idList L
  exact le_trans (hsub.count_le x) (List.nodup_iff_count_le_one.mp hnd x)

/-- Concrete site for the C4 counterexample: one legislature, 21 results
(2 pages), and the same link on both pages. -/
def siteDupPages : Site :=
  { allLegislatures := ["L"], selectedLegislatures := ["L"],
    selectOk := fun _ => true, clearOk := fun _ => true, searchOk := fun _ => true,
    counterText := fun _ => "21 Resultados encontrados",
    pageOk := fun _ _ => true,
    pageHrefs := fun _ _ => ["Biografia.aspx?BID=5"],
    pageNumberTexts := fun _ _ => [] }

/-- C4 counterexample: with caching DISABLED, the extracted set is never
unioned into the seen set, so an identifier extracted on two pages of one
partition is recorded twice in the partition's RunResult — the claim's
"exactly once" fails for that run. -/
theorem c4_counterexample :
    dictLookup (process_legislatures .mp siteDupPages false false ["L"]
        (ScrState.mk [] [] [])).1.idList "L"
      = [.plain "5", .plain "5"]
    ∧ (dictLookup (process_legislatures .mp siteDupPages false false ["L"]
        (ScrState.mk [] [] [])).1.idList "L").count (.plain "5") = 2 := by
  exact ⟨rfl, by decide⟩

/-! ### C6: the result writer -/

theorem sortByPyKey_spec {α : Type} (key : α → Except PyError Int) (f : α → Int)
    (l : List α) (h : ∀ a ∈ l, key a = .ok (f a)) :
    ∃ out, sortByPyKey key l = .ok out ∧ List.Perm out l
      ∧ out.Pairwise (fun a b => f a ≤ f b) := by
  have hmap : l.mapM (fun a => do let k ← key a; pure (a, k))
      = .ok (l.map (fun a => (a, f a))) := by
    induction l with
    | nil => rfl
    | cons a tl ih =>
      have ha := h a (List.mem_cons_self a tl)
      have ihh := ih (fun b hb => h b (List.mem_cons_of_mem a hb))
      rw [List.mapM_cons, ha, ihh]
      rfl
  refine ⟨((l.map (fun a => (a, f a))).insertionSort pairLE).map Prod.fst, ?_, ?_, ?_⟩
  · unfold sortByPyKey
    rw [hmap]
    rfl
  · have hp := List.perm_insertionSort pairLE (l.map (fun a => (a, f a)))
    have hp' := hp.map Prod.fst
    have hid : (l.map (fun a => (a, f a))).map Prod.fst = l := by
      rw [List.map_map]
      have hc : (Prod.fst ∘ fun a : α => (a, f a)) = id := rfl
      rw [hc, List.map_id]
    rw [hid] at hp'
    exact hp'
  · have hs : List.Sorted pairLE ((l.map (fun a => (a, f a))).insertionSort pairLE) :=
      List.sorted_insertionSort pairLE _
    rw [List.pairwise_map]
    refine hs.imp_of_mem ?_
    intro x y hx hy hxy
    have hxk := (List.perm_insertionSort pairLE _).subset hx
    have hyk := (List.perm_insertionSort pairLE _).subset hy
    obtain ⟨a, _, rfl⟩ := List.mem_map.mp hxk
    obtain ⟨b, _, rfl⟩ := List.mem_map.mp hyk
    exact hxy

theorem mapM_tokenOfIdent_ok (l : List EntityId)
    (h : ∀ i ∈ l, ∃ s, i = .plain s) :
    ∃ ts : List String, l.mapM tokenOfIdent = .ok ts
      ∧ ts.map EntityId.plain = l := by
  induction l with
  | nil => exact ⟨[], rfl, rfl⟩
  | cons i tl ih =>
    obtain ⟨s, rfl⟩ := h i (List.mem_cons_self i tl)
    obtain ⟨ts, hts, hmap⟩ := ih (fun j hj => h j (List.mem_cons_of_mem _ hj))
    refine ⟨s :: ts, ?_, ?_⟩
    · rw [List.mapM_cons, hts]
      rfl
    · rw [List.map_cons, hmap]

theorem pyInt_digits (s : String) (h1 : s ≠ "")
    (h2 : s.data.all Char.isDigit) :
    pyInt s = .ok ((digitStrToNat s : Int)) := by
  unfold pyInt
  rw [if_pos ⟨h1, h2⟩]

/-- C6: the writer flattens the RunResult into one deduplicated collection
across partitions and emits it sorted ascending by the numeric value of the
token, one token per line with a final newline; tokens `33, 4, 200` (with
`4` occurring in two partitions) come out as `4\n33\n200\n`, and the
attendance kind writes `token,number` lines. -/
theorem c6_writer (idList : List (String × List EntityId))
    (h : ∀ i ∈ flattenIds idList,
      ∃ s, i = EntityId.plain s ∧ s ≠ "" ∧ s.data.all Char.isDigit) :
    (∃ lines : List String,
        output_content .mp idList = .ok (String.intercalate "\n" lines ++ "\n")
        ∧ List.Perm (lines.map EntityId.plain) ((flattenIds idList).dedup)
        ∧ lines.Pairwise (fun a b => digitStrToNat a ≤ digitStrToNat b))
    ∧ output_content .mp
        [("I", [.plain "33", .plain "4"]), ("II", [.plain "200", .plain "4"])]
        = .ok "4\n33\n200\n"
    ∧ output_content .attendance [("I", [.att "10" "5"])] = .ok "10,5\n\n" := by
  refine ⟨?_, rfl, rfl⟩
  have hdl : ∀ i ∈ (flattenIds idList).dedup,
      ∃ s, i = EntityId.plain s ∧ s ≠ "" ∧ s.data.all Char.isDigit :=
    fun i hi => h i (List.mem_dedup.mp hi)
  obtain ⟨ts, hts, hmap⟩ := mapM_tokenOfIdent_ok _
    (fun i hi => (hdl i hi).imp (fun s hs => hs.1))
  have hkey : ∀ t ∈ ts, pyInt t = .ok ((digitStrToNat t : Int)) := by
    intro t ht
    have hmem : EntityId.plain t ∈ (flattenIds idList).dedup := by
      rw [← hmap]
      exact List.mem_map_of_mem _ ht
    obtain ⟨s, hs, hne, hdig⟩ := hdl _ hmem
    injection hs with hts'
    subst hts'
    exact pyInt_digits t hne hdig
  obtain ⟨out, hout, hperm, hpair⟩ :=
    sortByPyKey_spec pyInt (fun t => (digitStrToNat t : Int)) ts hkey
  refine ⟨out, ?_, ?_, ?_⟩
  · unfold output_content
    rw [if_neg (by decide : ¬(Entity.mp = Entity.attendance)), hts]
    show (match sortByPyKey pyInt ts with
      | Except.error e => Except.error e
      | Except.ok sortedToks => Except.ok (String.intercalate "\n" sortedToks ++ "\n"))
      = Except.ok (String.intercalate "\n" out ++ "\n")
    rw [hout]
  · have := hperm.map EntityId.plain
    rw [hmap] at this
    exact this
  · refine hpair.imp ?_
    intro a b hab
    exact_mod_cast hab

theorem c6_writer_witness :
    (∃ lines : List String,
        output_content .mp [("I", [.plain "33", .plain "4"]), ("II", [.plain "200"])]
          = .ok (String.intercalate "\n" lines ++ "\n")
        ∧ List.Perm (lines.map EntityId.plain)
            ((flattenIds [("I", [.plain "33", .plain "4"]), ("II", [.plain "200"])]).dedup)
        ∧ lines.Pairwise (fun a b => digitStrToNat a ≤ digitStrToNat b))
    ∧ output_content .mp
        [("I", [.plain "33", .plain "4"]), ("II", [.plain "200", .plain "4"])]
        = .ok "4\n33\n200\n"
    ∧ output_content .attendance [("I", [.att "10" "5"])] = .ok "10,5\n\n" := by
  refine c6_writer _ ?_
  intro i hi
  have hfl : flattenIds [("I", [EntityId.plain "33", EntityId.plain "4"]),
      ("II", [EntityId.plain "200"])]
      = [EntityId.plain "33", EntityId.plain "4", EntityId.plain "200"] := rfl
  rw [hfl] at hi
  simp only [List.mem_cons, List.not_mem_nil, or_false] at hi
  rcases hi with rfl | rfl | rfl
  · exact ⟨"33", rfl, by decide, by decide⟩
  · exact ⟨"4", rfl, by decide, by decide⟩
  · exact ⟨"200", rfl, by decide, by decide⟩

/-! ### C7: permissiveness of the cache load -/

/-- C7 counterexample: a cache file whose contents `json.load` rejects is
NOT treated as empty state — `get_cache` raises the `ValueError` (nothing
catches it), instead of returning the empty record. -/
theorem c7_counterexample :
    get_cache true (FS.mk true true (some .corrupt)) = .error .valueError
    ∧ get_cache true (FS.mk true true (some .corrupt)) ≠ .ok emptyCacheRecord := by
  refine ⟨rfl, ?_⟩
  intro hx
  rw [show get_cache true (FS.mk true true (some .corrupt)) = .error .valueError from rfl] at hx
  exact Except.noConfusion hx

/-- C7 amended: `get_cache` returns the empty record whenever caching is
disabled, the cache directory does not exist (whether or not it can be
created), or the cache file is missing/unopenable; only corrupt or
ill-typed file CONTENTS raise (`ValueError` from `json.load`, `TypeError`
from `set()`), since no handler covers the parsing step. -/
theorem c7_load_empty (cacheFlag : Bool) (fs : FS)
    (h : cacheFlag = false ∨ fs.cacheDirExists = false ∨ fs.cacheFile = none) :
    get_cache cacheFlag fs = .ok emptyCacheRecord := by
  rcases h with h | h | h
  · simp [get_cache, h]
  · cases hc : cacheFlag with
    | false => simp [get_cache]
    | true => simp [get_cache, h]
  · unfold get_cache
    split_ifs with h1 h2
    · rfl
    · rfl
    · rw [h]

theorem c7_load_empty_witness :
    get_cache true (FS.mk false false none) = .ok emptyCacheRecord :=
  c7_load_empty true (FS.mk false false none) (Or.inr (Or.inl rfl))

/-! ### C8: an uncreatable cache directory makes the end-of-run save raise -/

/-- Concrete site with one legislature and one result link. -/
def siteOneResult : Site :=
  { allLegislatures := ["I"], selectedLegislatures := ["I"],
    selectOk := fun _ => true, clearOk := fun _ => true, searchOk := fun _ => true,
    counterText := fun _ => "1 Resultados encontrados",
    pageOk := fun _ _ => true,
    pageHrefs := fun _ _ => ["Biografia.aspx?BID=3"],
    pageNumberTexts := fun _ _ => [] }

/-- C8, evaluated at the failing input: when `CACHE_DIR` does not exist and
cannot be created, the run still crawls and writes the output file, but —
because `get_cache` logs "Results will not be cached!" WITHOUT clearing
`self.cache` — `main` still reaches the save, whose `open` under the
missing directory raises an uncaught `OSError`.  The claim (and the code's
own log message) say the run proceeds without caching and the save does not
raise. -/
theorem c8_mkdir_failure_save_raises :
    scraper_main .mp siteOneResult false true (FS.mk false false none)
      = { output := some "3\n", savedCache := none, error := some .oserror }
    ∧ (scraper_main .mp siteOneResult false true (FS.mk false false none)).error
        ≠ none := by
  exact ⟨rfl, by decide⟩

/-! ### C9: the cache round-trip breaks on attendance pairs -/

/-- C9, evaluated at the failing input: saving a cache record holding one
attendance identifier `("10", "5")` and loading it back raises `TypeError`
— `json.dump` wrote the tuple as a JSON array, `json.load` returned it as
a Python list, and `set()` of a list is unhashable — instead of
reproducing the record. -/
theorem c9_attendance_roundtrip_raises :
    get_cache true
        (FS.mk true true (some (save_record (CacheRecord.mk ["I"] [.att "10" "5"]))))
      = .error .typeError
    ∧ get_cache true
        (FS.mk true true (some (save_record (CacheRecord.mk ["I"] [.att "10" "5"]))))
      ≠ .ok (CacheRecord.mk ["I"] [.att "10" "5"]) := by
  refine ⟨rfl, ?_⟩
  intro hx
  rw [show get_cache true
      (FS.mk true true (some (save_record (CacheRecord.mk ["I"] [.att "10" "5"]))))
      = .error .typeError from rfl] at hx
  exact Except.noConfusion hx

theorem mapM_jvalToIdent_plain (l : List EntityId)
    (h : ∀ i ∈ l, ∃ s, i = .plain s) :
    (l.map identToJVal).mapM jvalToIdent = .ok l := by
  induction l with
  | nil => rfl
  | cons i tl ih =>
    obtain ⟨s, rfl⟩ := h i (List.mem_cons_self i tl)
    have ihh := ih (fun j hj => h j (List.mem_cons_of_mem _ hj))
    rw [List.map_cons, List.mapM_cons]
    show (do
      let x ← jvalToIdent (identToJVal (EntityId.plain s))
      let xs ← (tl.map identToJVal).mapM jvalToIdent
      pure (x :: xs)) = Except.ok (EntityId.plain s :: tl)
    rw [show jvalToIdent (identToJVal (EntityId.plain s))
        = Except.ok (EntityId.plain s) from rfl]
    rw [ihh]
    rfl

/-- Round-trip of the cache file for records whose identifiers are all
plain string tokens (the `mp` and `initiative` kinds): saving and loading
reproduces both fields exactly.  This is the behaviour C9 asserts; the
attendance pairs break it (`c9_attendance_roundtrip_raises`). -/
theorem get_cache_save_roundtrip_plain (r : CacheRecord) (creatable : Bool)
    (hplain : ∀ i ∈ r.ids, ∃ s, i = .plain s) (hnd : r.ids.Nodup) :
    get_cache true (FS.mk true creatable (some (save_record r))) = .ok r := by
  unfold get_cache save_record
  simp only [Bool.true_eq_false, if_false]
  show (match setIds (r.ids.map identToJVal) with
    | Except.error e => Except.error e
    | Except.ok ids => Except.ok { legislatures := r.legislatures, ids := ids })
    = Except.ok r
  unfold setIds
  rw [mapM_jvalToIdent_plain r.ids hplain]
  show Except.ok ({ legislatures := r.legislatures, ids := r.ids.dedup } : CacheRecord)
    = Except.ok r
  rw [List.dedup_eq_self.mpr hnd]

/-! ### C10: attendance pairing truncates to the shorter sequence -/

theorem zip_map_fst_take {α β : Type} (l1 : List α) (l2 : List β) :
    (l1.zip l2).map Prod.fst = l1.take l2.length := by
  induction l1 generalizing l2 with
  | nil => simp
  | cons a t1 ih =>
    cases l2 with
    | nil => simp
    | cons b t2 => simp [ih]

theorem zip_map_snd_take {α β : Type} (l1 : List α) (l2 : List β) :
    (l1.zip l2).map Prod.snd = l2.take l1.length := by
  induction l1 generalizing l2 with
  | nil => simp
  | cons a t1 ih =>
    cases l2 with
    | nil => simp
    | cons b t2 => simp [ih]

/-- C10: for the attendance kind, extraction zips the token sequence with
the session-number sequence positionally: the result pairs them up to the
shorter length (its length is the minimum of the two) and silently drops
the excess elements of the longer sequence, instead of failing. -/
theorem c10_attendance_zip (hrefs numberTexts toks : List String)
    (h : hrefs.mapM extract_token = .ok toks) :
    get_ids .attendance hrefs numberTexts
      = .ok (((toks.zip numberTexts).map (fun p => EntityId.att p.1 p.2)).dedup)
    ∧ (toks.zip numberTexts).length = min toks.length numberTexts.length
    ∧ (toks.zip numberTexts).map Prod.fst = toks.take numberTexts.length
    ∧ (toks.zip numberTexts).map Prod.snd = numberTexts.take toks.length := by
  refine ⟨?_, by simp, zip_map_fst_take toks numberTexts, zip_map_snd_take toks numberTexts⟩
  unfold get_ids
  rw [h]
  rfl

theorem c10_attendance_zip_witness :
    get_ids .attendance ["a?x=10", "b?y=11"] ["5", "6", "7"]
      = .ok (((["10", "11"].zip ["5", "6", "7"]).map
          (fun p => EntityId.att p.1 p.2)).dedup)
    ∧ (["10", "11"].zip ["5", "6", "7"]).length
        = min ["10", "11"].length ["5", "6", "7"].length
    ∧ (["10", "11"].zip ["5", "6", "7"]).map Prod.fst
        = ["10", "11"].take ["5", "6", "7"].length
    ∧ (["10", "11"].zip ["5", "6", "7"]).map Prod.snd
        = ["5", "6", "7"].take ["10", "11"].length :=
  c10_attendance_zip ["a?x=10", "b?y=11"] ["5", "6", "7"] ["10", "11"] rfl
